import Mathlib

/-!
Verification development for the oral-exam grading backend.

The Python sources are shallowly embedded: every outbound call to a model
provider (Gemini, Claude, Google Speech-to-Text) is a request value handed to
an oracle function that returns either a text response or an error, and each
embedded service function returns both the list of requests it issued (in
order) and its `Except` result.  Machine-level Python behaviours that the code
relies on (`str.replace`, `str.strip`, `int(...)`, `str.find`, slicing,
truthiness, `round`) are embedded as explicit functions on `List Char` / `Int`.
-/

namespace OralExam

/-- Error kinds of the core, following the spec's taxonomy in section 7; each
constructor corresponds to a concrete Python exception in the source:
`promptLoad` to `FileNotFoundError` from `read_prompt`, `backend` to provider
failures, `gradeParse` to the `ValueError` of `int(...)` in
`convert_report_to_int`, `missingCredential` to the `ValueError` raised in
`transcribe_audio_with_google_speech_api_key` when `GEMINI_API_KEY` is unset,
`timeout` to `TimeoutError`, `malformedResponse` to the `json.loads` failure in
`detect_cheating`, `typeErr` to the `AttributeError` Python would raise when
`.get` is called on a non-dict, and `runtime` to `RuntimeError`. -/
inductive Err where
  | promptLoad (name : String)
  | backend (provider : String) (msg : String)
  | gradeParse
  | missingCredential
  | timeout
  | malformedResponse
  | typeErr
  | runtime (msg : String)
deriving DecidableEq, Repr

/-- Content parts of a Gemini request: `genai.types.Part.from_bytes` data
(audio or video bytes with a MIME type) or plain prompt text.  Byte buffers
are modelled as lists of naturals. -/
inductive Part where
  | bytes (data : List Nat) (mime : String)
  | text (s : String)
deriving DecidableEq, Repr

/-- One outbound request of the evaluation core.  `readProm` is a read of a
prompt file by `read_prompt`; `transcribeGemini` is the call to
`transcribe_audio_with_gemini` (imported by `exam_service.py` but not present
in the sources, see its wrapper below); `geminiGen` is
`gemini_client.models.generate_content` with model name, contents, system
instruction and optional temperature; `claudeMsg` is
`claude_client.messages.create` with model name, `max_tokens`, system prompt
and the single user message text. -/
inductive Call where
  | readProm (name : String)
  | transcribeGemini (audio : List Nat) (mime : String)
  | geminiGen (model : String) (contents : List Part) (system : String) (temperature : Option ℚ)
  | claudeMsg (model : String) (maxTokens : Nat) (system : String) (user : String)
deriving DecidableEq, Repr

/-- An oracle fixes the outcome of every outbound request: the response text of
the remote model, or the error the call raises. -/
def Oracle : Type := Call → Except Err String

/-- Result of an embedded service function: the requests issued, in order, and
the returned value or propagated error. -/
abbrev Tr (α : Type) : Type := List Call × Except Err α

/-- Embedding of a plain `return`: no request issued. -/
def pureT {α : Type} (a : α) : Tr α := ([], .ok a)

/-- Embedding of a locally raised exception: no request issued. -/
def failT {α : Type} (e : Err) : Tr α := ([], .error e)

/-- Embedding of one awaited outbound call. -/
def callT (o : Oracle) (c : Call) : Tr String := ([c], o c)

/-- Sequential composition of two embedded statements: if the first raises,
the second never runs (Python exception propagation). -/
def seqT {α β : Type} (x : Tr α) (f : α → Tr β) : Tr β :=
  match x with
  | (l, .error e) => (l, .error e)
  | (l, .ok a) => (l ++ (f a).1, (f a).2)

/-- Python whitespace characters stripped by `str.strip()` (ASCII range; the
source never feeds non-ASCII whitespace to `strip`). -/
def isPySpace (c : Char) : Bool :=
  c = ' ' || c = '\t' || c = '\n' || c = '\r' || c = '\x0b' || c = '\x0c'

/-- Embedding of Python `str.strip()` on character lists. -/
def pyStripL (s : List Char) : List Char :=
  ((s.dropWhile isPySpace).reverse.dropWhile isPySpace).reverse

/-- Embedding of Python `str.strip()`. -/
def pyStrip (s : String) : String := String.mk (pyStripL s.data)

/-- Substring containment, the embedding of Python's `sub in s` for strings:
true when `pat` occurs contiguously in `s`. -/
def occursB (pat : List Char) : List Char → Bool
  | [] => pat.isEmpty
  | c :: rest => pat.isPrefixOf (c :: rest) || occursB pat rest

/-- Embedding of Python `s.replace(pat, rep)` for a non-empty pattern: scan
left to right, replace each non-overlapping occurrence of `pat`, and continue
after the replaced occurrence (the replacement text is never rescanned).  The
source only calls this with the literal pattern `{class_name}`; for an empty
pattern this embedding returns the string unchanged. -/
def pyReplaceL (pat rep : List Char) : List Char → List Char
  | [] => []
  | c :: rest =>
    if h : pat ≠ [] ∧ pat.isPrefixOf (c :: rest) then
      rep ++ pyReplaceL pat rep (List.drop pat.length (c :: rest))
    else
      c :: pyReplaceL pat rep rest
termination_by s => s.length
decreasing_by
  · simp only [List.length_drop, List.length_cons]
    have hne : pat.length ≠ 0 := fun hz => h.1 (List.length_eq_zero.mp hz)
    omega
  · simp

/-- Decomposition of a string at the non-overlapping occurrences of `pat`,
found by the same left-to-right scan as `pyReplaceL`; the pieces do not depend
on any replacement text. -/
def pySplitL (pat : List Char) : List Char → List (List Char)
  | [] => [[]]
  | c :: rest =>
    if h : pat ≠ [] ∧ pat.isPrefixOf (c :: rest) then
      [] :: pySplitL pat (List.drop pat.length (c :: rest))
    else
      (pySplitL pat rest).modifyHead (c :: ·)
termination_by s => s.length
decreasing_by
  · simp only [List.length_drop, List.length_cons]
    have hne : pat.length ≠ 0 := fun hz => h.1 (List.length_eq_zero.mp hz)
    omega
  · simp

/-- Interleaving a separator between pieces (Python `sep.join(pieces)` at the
character-list level). -/
def joinWith (sep : List Char) : List (List Char) → List Char
  | [] => []
  | [x] => x
  | x :: y :: rest => x ++ sep ++ joinWith sep (y :: rest)

/-- Embedding of Python `template.replace(pat, rep)` at the `String` level. -/
def pyReplaceS (s pat rep : String) : String :=
  String.mk (pyReplaceL pat.data rep.data s.data)

/-- Digit run of a Python integer literal after the first digit: ASCII digits
in which a single underscore may stand between two digits (`int("4_2")` is 42,
while `"_42"`, `"42_"` and `"4__2"` all fail). -/
def pyDigitsAux : List Char → Nat → Option Nat
  | [], acc => some acc
  | '_' :: c :: rest, acc =>
    if c.isDigit then pyDigitsAux rest (acc * 10 + (c.toNat - 48)) else none
  | ['_'], _ => none
  | c :: rest, acc =>
    if c.isDigit then pyDigitsAux rest (acc * 10 + (c.toNat - 48)) else none

/-- Unsigned digit sequence of a Python integer literal: at least one digit,
then `pyDigitsAux`. -/
def pyDigits : List Char → Option Nat
  | [] => none
  | c :: rest => if c.isDigit then pyDigitsAux rest (c.toNat - 48) else none

/-- Embedding of Python `int(s)` for ASCII text: strip whitespace, then an
optional sign followed by a digit run; anything else raises `ValueError`
(no regex fallback, no clamping). -/
def pyInt (s : String) : Option Int :=
  match pyStripL s.data with
  | '+' :: rest => (pyDigits rest).map (fun n => (n : Int))
  | '-' :: rest => (pyDigits rest).map (fun n => -(n : Int))
  | rest => (pyDigits rest).map (fun n => (n : Int))

/-- Embedding of Python `round((g1 + g2) / 2)` applied to the integer sum
`s = g1 + g2`: the quotient `s / 2` is a half-integer, Python's true division
by 2 is exact in binary floating point for `|s| < 2 ^ 53`, and `round` on a
half-integer float is round-half-to-even; this definition mirrors that exact
rounding (floor quotient when the sum is even, otherwise the even neighbour of
the half-integer). -/
def pyRoundHalfSum (s : Int) : Int :=
  if s % 2 = 0 then s / 2
  else if (s / 2) % 2 = 0 then s / 2 else s / 2 + 1

/-- Grade combination of `process_exam`, line 252 of `exam_service.py`:
`round((grade_1 + grade_2) / 2)`. -/
def roundAvg (g1 g2 : Int) : Int := pyRoundHalfSum (g1 + g2)

/-- ASCII apostrophe, spelled out so the embedded prompt literals can quote the
source f-strings verbatim. -/
def aposS : String := String.singleton (Char.ofNat 39)

/-- User prompt of `call_gemini` (line 56 of `exam_service.py`). -/
def geminiFirstPrompt : String := "Please analyze this audio recording from an oral exam."

/-- User prompt of `call_gemini_with_peer_response` (line 99), with the peer
report interpolated by the f-string. -/
def geminiPeerPrompt (peer_response : String) : String :=
  "Here is the other AI" ++ aposS ++ "s analysis of the oral exam:\n\n" ++ peer_response ++
    "\n\nPlease provide your final assessment considering this input and the audio recording."

/-- User prompt of `call_claude` (line 129), with the transcript interpolated. -/
def claudeFirstPrompt (transcript : String) : String :=
  "Please analyze this transcript from an oral exam recording:\n\n" ++ transcript

/-- User prompt of `call_claude_with_peer_response` (line 164). -/
def claudePeerPrompt (transcript peer_response : String) : String :=
  "Here is the transcript from the oral exam:\n\n" ++ transcript ++
    "\n\nHere is the other AI" ++ aposS ++ "s analysis of the oral exam:\n\n" ++ peer_response ++
    "\n\nPlease provide your final assessment considering both the transcript and this input."

/-- User prompt of `convert_report_to_int` (line 270). -/
def extractPrompt (report : String) : String :=
  "Extract the final grade/score from this review and return only the integer:\n\n" ++ report

/-- Embedding of `read_prompt`: a read of the named file in the prompts
directory, which either yields the template text or raises (a missing file is
the spec's `PromptLoadError`); the outcome is the oracle's. -/
def read_prompt (o : Oracle) (filename : String) : Tr String :=
  callT o (.readProm filename)

/-- Modelled from the spec: `transcribe_audio_with_gemini` is imported by
`exam_service.py` from `services.transcription` but is absent from the
sources; per the spec it is an opaque speech-to-text capability — audio bytes
and MIME type in, transcript text out, any failure propagating. -/
def transcribe_audio_with_gemini (o : Oracle) (audio : List Nat) (mime_type : String) : Tr String :=
  callT o (.transcribeGemini audio mime_type)

/-- Embedding of `call_gemini` (lines 34-71): one `generate_content` request on
`gemini-3-pro-preview` carrying the audio part and the fixed analysis prompt,
with the given system instruction and temperature. -/
def call_gemini (o : Oracle) (audio : List Nat) (system_prompt : String) (mime_type : String)
    (temperature : ℚ) : Tr String :=
  callT o (.geminiGen "gemini-3-pro-preview"
    [.bytes audio mime_type, .text geminiFirstPrompt] system_prompt (some temperature))

/-- Embedding of `call_gemini_with_peer_response` (lines 74-113): the audio
part again, plus the peer report embedded verbatim in the review prompt. -/
def call_gemini_with_peer_response (o : Oracle) (audio : List Nat) (peer_response : String)
    (peer_prompt : String) (mime_type : String) (temperature : ℚ) : Tr String :=
  callT o (.geminiGen "gemini-3-pro-preview"
    [.bytes audio mime_type, .text (geminiPeerPrompt peer_response)] peer_prompt (some temperature))

/-- Embedding of `call_claude` (lines 116-147): one `messages.create` request
on `claude-opus-4-6` with `max_tokens=8192` and the transcript in the user
message. -/
def call_claude (o : Oracle) (transcript : String) (system_prompt : String) : Tr String :=
  callT o (.claudeMsg "claude-opus-4-6" 8192 system_prompt (claudeFirstPrompt transcript))

/-- Embedding of `call_claude_with_peer_response` (lines 150-181): transcript
and peer report embedded verbatim in the user message. -/
def call_claude_with_peer_response (o : Oracle) (transcript peer_response : String)
    (peer_prompt : String) : Tr String :=
  callT o (.claudeMsg "claude-opus-4-6" 8192 peer_prompt (claudePeerPrompt transcript peer_response))

/-- Embedding of `convert_report_to_int` (lines 260-286): read the extractor
system prompt, issue one `gemini-2.5-flash` call (no temperature in its
config), strip the response and parse it with `int(...)`; a failed parse is
the spec's `GradeParseError`. -/
def convert_report_to_int (o : Oracle) (report : String) : Tr Int :=
  seqT (read_prompt o "find_final_score.txt") fun sys =>
  seqT (callT o (.geminiGen "gemini-2.5-flash" [.text (extractPrompt report)] sys none)) fun resp =>
  match pyInt (pyStrip resp) with
  | some n => pureT n
  | none => failT .gradeParse

/-- Embedding of `process_exam` (lines 184-257), statement by statement: load
and substitute the two stage prompts, transcribe, await the Gemini first-pass
call, then the Claude first-pass call, then the Gemini peer-review call (fed
Claude's first-pass response), then the Claude peer-review call (fed Gemini's
first-pass response), extract both grades and return the rounded average.
Each `await` in the source runs its call to completion before the next
statement starts, and this sequencing is preserved. -/
def process_exam (o : Oracle) (audio : List Nat) (class_name : String) (mime_type : String) :
    Tr Int :=
  seqT (read_prompt o "first_stage.txt") fun fsRaw =>
  let first_stage_prompt := pyReplaceS fsRaw "{class_name}" class_name
  seqT (read_prompt o "second_stage.txt") fun ssRaw =>
  let second_stage_prompt := pyReplaceS ssRaw "{class_name}" class_name
  seqT (transcribe_audio_with_gemini o audio mime_type) fun transcript =>
  seqT (call_gemini o audio first_stage_prompt mime_type 1) fun gemini_response =>
  seqT (call_claude o transcript first_stage_prompt) fun claude_response =>
  seqT (call_gemini_with_peer_response o audio claude_response second_stage_prompt mime_type 1)
    fun gemini_final =>
  seqT (call_claude_with_peer_response o transcript gemini_response second_stage_prompt)
    fun claude_final =>
  seqT (convert_report_to_int o gemini_final) fun grade_1 =>
  seqT (convert_report_to_int o claude_final) fun grade_2 =>
  pureT (roundAvg grade_1 grade_2)

/-- All requests in a list were answered successfully by the oracle. -/
def allOk (o : Oracle) (l : List Call) : Prop := ∀ c ∈ l, ∃ v, o c = .ok v

/-- Abort discipline of the core: on success every issued request succeeded;
on error either the error is exactly the failing final request's error (with
everything before it successful and nothing issued after it), or it is a
locally raised error from `locals` with every issued request successful.  In
both error cases the result carries no value, so no grade is produced on an
error path. -/
def Aborts (o : Oracle) (locals' : Err → Prop) {α : Type} (t : Tr α) : Prop :=
  match t.2 with
  | .ok _ => allOk o t.1
  | .error e =>
    (∃ pre c, t.1 = pre ++ [c] ∧ o c = .error e ∧ allOk o pre) ∨ (locals' e ∧ allOk o t.1)

/-- JSON values as produced by `json.loads`, with objects as insertion-ordered
key/value lists (Python dicts preserve insertion order and `json.loads` keeps
the last duplicate, so lookups below take the first match of the final dict).
Numbers are modelled as integers; no claim involves fractional JSON numbers. -/
inductive Json where
  | null
  | bool (b : Bool)
  | num (n : Int)
  | str (s : String)
  | arr (xs : List Json)
  | obj (fields : List (String × Json))
deriving Repr

/-- Python truthiness of a JSON value (`None`, `False`, `0`, `""`, `[]` and
an empty dict are falsy). -/
def pyTruthy : Json → Bool
  | .null => false
  | .bool b => b
  | .num n => n != 0
  | .str s => !s.data.isEmpty
  | .arr xs => !xs.isEmpty
  | .obj fields => !fields.isEmpty

/-- Embedding of Python `dict.get(key, default)` on a parsed JSON object:
the stored value when the key is present (even when that value is `null`),
otherwise the default. -/
def dGet (fields : List (String × Json)) (key : String) (default' : Json) : Json :=
  (fields.lookup key).getD default'

/-- Embedding of `dict.get(key)` (default `None`) on a JSON value known to be
an object; on a non-object Python would raise, which no claim exercises. -/
def dGetJ (j : Json) (key : String) : Json :=
  match j with
  | .obj fields => dGet fields key .null
  | _ => .null

/-- Embedding of `dict.get(key, default)` on a JSON value. -/
def dGetJD (j : Json) (key : String) (default' : Json) : Json :=
  match j with
  | .obj fields => dGet fields key default'
  | _ => default'

/-- Embedding of Python `key in dict` for a JSON object (false on non-objects,
where Python's `in` would mean something else; the source only reaches this
with a dict). -/
def jsonHasKey (j : Json) (key : String) : Bool :=
  match j with
  | .obj fields => fields.any (fun kv => kv.1 = key)
  | _ => false

/-- Embedding of Python `s.find(sub, start)` for a non-empty `sub`: the lowest
index at or after `start` where `sub` occurs, or `-1`. -/
def pyFindAux (pat : List Char) : List Char → Nat → Int
  | [], _ => -1
  | c :: rest, i => if pat.isPrefixOf (c :: rest) then (i : Int) else pyFindAux pat rest (i + 1)

/-- Python `s.find(sub, start)` on a character list. -/
def pyFind (s pat : List Char) (start : Nat) : Int :=
  pyFindAux pat (s.drop start) start

/-- Embedding of Python slicing `s[start:stop]` with possibly negative `stop`
(as produced by a failed `find`): negative indices count from the end, and the
result is empty when the normalized stop does not exceed the start. -/
def pySlice (s : List Char) (start stop : Int) : List Char :=
  let n : Int := s.length
  let a := if start < 0 then n + start else start
  let b := if stop < 0 then n + stop else stop
  (s.take b.toNat).drop a.toNat

/-- Fence stripping of `detect_cheating` (lines 89-97 of `anticheat.py`): when
the stripped response contains a markdown fence, cut out the text between the
first fence opener and the next closing fence and strip it again; otherwise
the text is left as is before `json.loads`. -/
def fencedStrip (t : List Char) : List Char :=
  if occursB "```json".data t then
    let s := pyFind t "```json".data 0 + 7
    let e := pyFind t "```".data s.toNat
    pyStripL (pySlice t s e)
  else if occursB "```".data t then
    let s := pyFind t "```".data 0 + 3
    let e := pyFind t "```".data s.toNat
    pyStripL (pySlice t s e)
  else t

/-- Result dataclass of `detect_cheating`; the Python type annotations on the
dataclass are not enforced at runtime, so every field holds whatever JSON
value the parsed response (or the default) supplied. -/
structure CheatingDetectionResult where
  is_cheating : Json
  confidence : Json
  summary : Json
  indicators_found : Json
  recommendation : Json
  notes : Json

/-- User prompt of `detect_cheating` (line 71 of `anticheat.py`). -/
def cheatPromptText : String :=
  "Please analyze this audio, video recording, and screen recording from an oral exam for any signs of cheating or academic dishonesty. Provide your analysis in the specified JSON format."

/-- The multimodal request `detect_cheating` sends: audio, student video and
screen recording parts plus the fixed prompt, at temperature 0.5. -/
def cheatReq (exam_audio student_video student_screen : List Nat)
    (am vm sm : String) (system_prompt : String) : Call :=
  .geminiGen "gemini-3-pro-preview"
    [.bytes exam_audio am, .bytes student_video vm, .bytes student_screen sm,
      .text cheatPromptText] system_prompt (some (1 / 2))

/-- Embedding of `detect_cheating` (`anticheat.py`): read the detection
prompt, issue one multimodal Gemini call, strip the response, remove
surrounding fenced-code markers if present, parse as JSON (`loads` stands for
Python's deterministic `json.loads`, `none` meaning it raises — the spec's
`MalformedResponseError`), and build the result with `dict.get` defaults for
missing fields. -/
def detect_cheating (loads : String → Option Json) (o : Oracle)
    (exam_audio student_video student_screen : List Nat)
    (exam_audio_mime_type student_video_mime_type student_screen_mime_type : String) :
    Tr CheatingDetectionResult :=
  seqT (read_prompt o "cheating_detection.txt") fun system_prompt =>
  seqT (callT o (cheatReq exam_audio student_video student_screen
      exam_audio_mime_type student_video_mime_type student_screen_mime_type system_prompt))
    fun resp =>
  let response_text := String.mk (fencedStrip (pyStripL resp.data))
  match loads response_text with
  | none => failT .malformedResponse
  | some (.obj fields) =>
    pureT ⟨dGet fields "is_cheating" (.bool false),
      dGet fields "confidence" (.str "low"),
      dGet fields "summary" (.str ""),
      dGet fields "indicators_found" (.arr []),
      dGet fields "recommendation" (.str "clear"),
      dGet fields "notes" (.str "")⟩
  | some _ => failT .typeErr

/-- Alphabet of standard base64. -/
def b64Chars : List Char :=
  "ABCDEFGHIJKLMNOPQRSTUVWXYZabcdefghijklmnopqrstuvwxyz0123456789+/".data

/-- Character of a 6-bit group. -/
def b64Char (n : Nat) : Char := b64Chars.getD n 'A'

/-- Embedding of `base64.standard_b64encode` on byte lists (bytes taken
mod-256 naturals). -/
def b64 : List Nat → List Char
  | [] => []
  | [a] => [b64Char (a / 4), b64Char (a % 4 * 16), '=', '=']
  | [a, b] => [b64Char (a / 4), b64Char (a % 4 * 16 + b / 16), b64Char (b % 16 * 4), '=']
  | a :: b :: c :: rest =>
    b64Char (a / 4) :: b64Char (a % 4 * 16 + b / 16) ::
      b64Char (b % 16 * 4 + c / 64) :: b64Char (c % 64) :: b64 rest

/-- The `encoding_map` lookup of `_speech_config_from_mime_type`, with default
`WEBM_OPUS`. -/
def encodingFor (mime_type : String) : String :=
  if mime_type = "audio/webm" then "WEBM_OPUS"
  else if mime_type = "audio/ogg" then "OGG_OPUS"
  else if mime_type = "audio/flac" then "FLAC"
  else if mime_type = "audio/wav" then "LINEAR16"
  else if mime_type = "audio/x-wav" then "LINEAR16"
  else if mime_type = "audio/mp3" then "MP3"
  else if mime_type = "audio/mpeg" then "MP3"
  else "WEBM_OPUS"

/-- The `sample_rate_map` lookup of `_speech_config_from_mime_type` (`None`
when the MIME type is absent from the map; `0` never occurs, so the source's
truthiness test on the rate equals presence). -/
def sampleRateFor (mime_type : String) : Option Nat :=
  if mime_type = "audio/webm" then some 48000
  else if mime_type = "audio/ogg" then some 48000
  else if mime_type = "audio/wav" then some 16000
  else if mime_type = "audio/x-wav" then some 16000
  else if mime_type = "audio/flac" then some 16000
  else none

/-- Embedding of `config[key] = value` on an insertion-ordered dict: replace in
place when the key exists, append otherwise. -/
def dictSet : List (String × Json) → String → Json → List (String × Json)
  | [], key, v => [(key, v)]
  | kv :: rest, key, v =>
    if kv.1 = key then (key, v) :: rest else kv :: dictSet rest key v

/-- Embedding of `_speech_config_from_mime_type` followed by the caller's
`config["languageCode"] = language_code` overwrite (lines 19-47 and 92-93 of
`transcription.py`). -/
def speech_config (mime_type language_code : String) : List (String × Json) :=
  let base : List (String × Json) :=
    [("encoding", .str (encodingFor mime_type)),
     ("languageCode", .str "en-US"),
     ("enableAutomaticPunctuation", .bool true),
     ("model", .str "latest_long")]
  let cfg :=
    match sampleRateFor mime_type with
    | some rate => base ++ [("sampleRateHertz", .num rate)]
    | none => base
  dictSet cfg "languageCode" (.str language_code)

/-- The JSON payload posted to `speech:longrunningrecognize` (lines 95-98). -/
def speechPayload (audio : List Nat) (mime_type language_code : String) : Json :=
  .obj [("config", .obj (speech_config mime_type language_code)),
        ("audio", .obj [("content", .str (String.mk (b64 audio)))])]

/-- List underlying a JSON array (`[]` on other values; in the places below
Python would raise on a non-list, which no claim exercises). -/
def asList : Json → List Json
  | .arr xs => xs
  | _ => []

/-- String content of a JSON value (`""` on non-strings; same caveat). -/
def asStr : Json → String
  | .str s => s
  | _ => ""

/-- Loop body of `_extract_transcript` (lines 67-75): for each result, take
`alternatives` (`or []` turns a falsy value into the empty list), and when it
is non-empty append the stripped transcript of its first entry if that is
non-empty. -/
def collectParts : List Json → List String
  | [] => []
  | r :: rest =>
    let altsJson := dGetJD r "alternatives" .null
    let alts := if pyTruthy altsJson then asList altsJson else []
    match alts with
    | [] => collectParts rest
    | a :: _ =>
      let transcript := pyStrip (asStr (dGetJD a "transcript" (.str "")))
      if transcript.data.isEmpty then collectParts rest
      else transcript :: collectParts rest

/-- Python `" ".join(parts)`. -/
def joinSpace : List String → String
  | [] => ""
  | [s] => s
  | s :: t :: rest => s ++ " " ++ joinSpace (t :: rest)

/-- Embedding of `_extract_transcript` (lines 67-75). -/
def extract_transcript (response : Json) : String :=
  pyStrip (joinSpace (collectParts (asList (dGetJD response "results" (.arr [])))))

/-- Network requests made by the Google Speech-to-Text path: the starting
POST with its payload, and each poll GET tagged with the operation name from
the start response and the elapsed whole seconds since polling began. -/
inductive SpeechEvent where
  | post (payload : Json)
  | poll (opName : Json) (clock : Nat)
deriving Repr

/-- Oracle for the speech REST calls: the start POST's outcome as a function
of the payload, and each poll's outcome as a function of the operation name
and the elapsed seconds at which the poll is issued. -/
structure SpeechNet where
  post : Json → Except Err Json
  get : Json → Nat → Except Err Json

/-- Message of `operation["error"].get("message", "Unknown error")`; a
non-string message (which Python would interpolate via `str`) is abstracted to
its default. -/
def opErrMsg (operation : Json) : String :=
  match dGetJ operation "error" with
  | .obj fields =>
    match fields.lookup "message" with
    | some (.str m) => m
    | _ => "Unknown error"
  | _ => "Unknown error"

/-- Embedding of the polling loop of
`transcribe_audio_with_google_speech_api_key` (lines 114-130): while the
elapsed time is below the deadline, poll once; a completed operation either
fails with the reported error or yields the extracted transcript; otherwise
sleep 2 seconds and repeat; when the deadline elapses first, raise
`TimeoutError`.  Time is modelled as the whole seconds advanced by
`time.sleep(2)`. -/
def pollOps (net : SpeechNet) (opName : Json) (deadline clock : Nat) :
    List SpeechEvent × Except Err String :=
  if clock < deadline then
    match net.get opName clock with
    | .error e => ([.poll opName clock], .error e)
    | .ok operation =>
      if pyTruthy (dGetJ operation "done") then
        if jsonHasKey operation "error" then
          ([.poll opName clock], .error (.backend "google-speech" (opErrMsg operation)))
        else
          ([.poll opName clock], .ok (extract_transcript (dGetJD operation "response" (.obj []))))
      else
        let r := pollOps net opName deadline (clock + 2)
        (.poll opName clock :: r.1, r.2)
  else ([], .error .timeout)
termination_by deadline - clock
decreasing_by omega

/-- Embedding of `transcribe_audio_with_google_speech_api_key` (lines 78-130):
fail fast with the spec's `MissingCredentialError` when `GEMINI_API_KEY` is
unset or empty (the source's `if not GEMINI_API_KEY: raise ValueError(...)`),
before any network request; otherwise start the long-running recognition and
poll under the deadline `timeout_seconds` after start. -/
def transcribe_audio_with_google_speech_api_key (net : SpeechNet) (geminiKey : Option String)
    (audio : List Nat) (mime_type language_code : String) (timeout_seconds : Nat) :
    List SpeechEvent × Except Err String :=
  let keyTruthy := match geminiKey with
    | none => false
    | some k => !k.data.isEmpty
  if keyTruthy = false then ([], .error .missingCredential)
  else
    let payload := speechPayload audio mime_type language_code
    match net.post payload with
    | .error e => ([.post payload], .error e)
    | .ok startResp =>
      let opName := dGetJ startResp "name"
      if pyTruthy opName = false then
        ([.post payload], .error (.runtime "Google Speech-to-Text did not return an operation name."))
      else
        let r := pollOps net opName timeout_seconds 0
        (.post payload :: r.1, r.2)

/-- Modelled from the spec: the key validation inside the provider SDK client
constructors (`genai.Client(api_key=GEMINI_API_KEY)` and
`anthropic.Anthropic(api_key=CLAUDE_API_KEY)` at lines 23-24 of
`exam_service.py`) is external library code, not part of the sources; the spec
states that absence of a required key fails fast at first use with a
`MissingCredentialError` rather than silently proceeding.  `api_keys.py` loads
each key with `os.getenv(..., default=None)`, so an absent environment
variable reaches first use as `none`. -/
def client_first_use (key : Option String) : Except Err Unit :=
  match key with
  | none => .error .missingCredential
  | some _ => .ok ()

/-- Full request trace of a successful `process_exam` run, given the raw
prompt templates `p1`, `p2`, extractor prompt `fs`, transcript `t`, first-pass
reports `gr`, `cr` and final reports `gf`, `cf`. -/
def runLog (audio : List Nat) (class_name mime_type p1 p2 t gr cr gf cf fs : String) :
    List Call :=
  [.readProm "first_stage.txt",
   .readProm "second_stage.txt",
   .transcribeGemini audio mime_type,
   .geminiGen "gemini-3-pro-preview" [.bytes audio mime_type, .text geminiFirstPrompt]
     (pyReplaceS p1 "{class_name}" class_name) (some 1),
   .claudeMsg "claude-opus-4-6" 8192 (pyReplaceS p1 "{class_name}" class_name)
     (claudeFirstPrompt t),
   .geminiGen "gemini-3-pro-preview" [.bytes audio mime_type, .text (geminiPeerPrompt cr)]
     (pyReplaceS p2 "{class_name}" class_name) (some 1),
   .claudeMsg "claude-opus-4-6" 8192 (pyReplaceS p2 "{class_name}" class_name)
     (claudePeerPrompt t gr),
   .readProm "find_final_score.txt",
   .geminiGen "gemini-2.5-flash" [.text (extractPrompt gf)] fs none,
   .readProm "find_final_score.txt",
   .geminiGen "gemini-2.5-flash" [.text (extractPrompt cf)] fs none]

/-- Concrete oracle for a fully successful run: stage templates `S1`/`S2`
(no placeholder, so substitution is a no-op), transcript `T`, first-pass
reports `GR`/`CR`, final reports `GF`/`CF`, and extractor responses `80` for
the Gemini-final report and `90` for the Claude-final report. -/
def oW : Oracle := fun c =>
  match c with
  | .readProm "first_stage.txt" => .ok "S1"
  | .readProm "second_stage.txt" => .ok "S2"
  | .readProm _ => .ok "SF"
  | .transcribeGemini _ _ => .ok "T"
  | .geminiGen "gemini-2.5-flash" contents _ _ =>
    if contents = [.text (extractPrompt "GF")] then .ok "80" else .ok "90"
  | .geminiGen _ _ system _ => if system = "S1" then .ok "GR" else .ok "GF"
  | .claudeMsg _ _ system _ => if system = "S1" then .ok "CR" else .ok "CF"

/-- Concrete oracle on which every Gemini `generate_content` request fails;
the first such request in `process_exam` is the Gemini first-pass call. -/
def oFail : Oracle := fun c =>
  match c with
  | .geminiGen _ _ _ _ => .error (.backend "gemini" "boom")
  | _ => .ok "x"

/-- Concrete oracle for the grade extractor: extractor prompt `FS` and an
extractor response of `" 42 "`. -/
def oE : Oracle := fun c =>
  match c with
  | .readProm _ => .ok "FS"
  | _ => .ok " 42 "

/-- Concrete oracle for the cheating detector: the model responds with a
fenced JSON object. -/
def oCW : Oracle := fun c =>
  match c with
  | .readProm _ => .ok "CP"
  | _ => .ok " ```json\n\x7b\x7d\n``` "

/-- Concrete JSON parser fixture: `"\x7b\x7d"` parses to an object carrying
`is_cheating` and `confidence` and nothing else. -/
def loadsW : String → Option Json := fun s =>
  if s = "\x7b\x7d" then
    some (.obj [("is_cheating", .bool true), ("confidence", .str "high")])
  else none

/-- Concrete speech network fixture: the start POST returns an operation name
and every poll reports the operation as not yet done. -/
def netW : SpeechNet :=
  ⟨fun _ => .ok (.obj [("name", .str "op-1")]),
   fun _ _ => .ok (.obj [("done", .bool false)])⟩

@[simp] theorem seqT_ok {α β : Type} (l : List Call) (a : α) (f : α → Tr β) :
    seqT (l, .ok a) f = (l ++ (f a).1, (f a).2) := rfl

@[simp] theorem seqT_err {α β : Type} (l : List Call) (e : Err) (f : α → Tr β) :
    seqT (l, .error e) f = (l, .error e) := rfl

theorem allOk_nil (o : Oracle) : allOk o [] := by simp [allOk]

theorem allOk_append {o : Oracle} {l₁ l₂ : List Call} :
    allOk o (l₁ ++ l₂) ↔ allOk o l₁ ∧ allOk o l₂ := by
  simp [allOk, List.mem_append, or_imp, forall_and]

theorem aborts_pure {o : Oracle} {L : Err → Prop} {α : Type} (a : α) :
    Aborts o L (pureT a) := by
  simp [Aborts, pureT, allOk]

theorem aborts_fail {o : Oracle} {L : Err → Prop} {α : Type} {e : Err} (h : L e) :
    Aborts o L (failT e : Tr α) := by
  simp only [Aborts, failT]
  exact Or.inr ⟨h, allOk_nil o⟩

theorem aborts_call {o : Oracle} {L : Err → Prop} (c : Call) : Aborts o L (callT o c) := by
  rcases h : o c with e | v
  · simp only [Aborts, callT, h]
    exact Or.inl ⟨[], c, by simp, h, allOk_nil o⟩
  · simp only [Aborts, callT, h]
    intro c' hc'
    simp only [List.mem_singleton] at hc'
    exact ⟨v, hc' ▸ h⟩

theorem aborts_seqT {o : Oracle} {L : Err → Prop} {α β : Type} {x : Tr α} {f : α → Tr β}
    (hx : Aborts o L x) (hf : ∀ a, Aborts o L (f a)) : Aborts o L (seqT x f) := by
  rcases x with ⟨l, r⟩
  rcases r with e | a
  · exact hx
  · rcases hr : (f a).2 with e | b
    · have hfa := hf a
      simp only [Aborts, hr] at hfa
      simp only [Aborts, seqT_ok, hr]
      simp only [Aborts] at hx
      rcases hfa with ⟨pre, c, hsplit, hc, hpre⟩ | ⟨hloc, hall⟩
      · refine Or.inl ⟨l ++ pre, c, ?_, hc, ?_⟩
        · rw [hsplit, List.append_assoc]
        · exact allOk_append.mpr ⟨hx, hpre⟩
      · exact Or.inr ⟨hloc, allOk_append.mpr ⟨hx, hall⟩⟩
    · have hfa := hf a
      simp only [Aborts, hr] at hfa
      simp only [Aborts, seqT_ok, hr]
      simp only [Aborts] at hx
      exact allOk_append.mpr ⟨hx, hfa⟩

theorem aborts_convert {o : Oracle} (L : Err → Prop) (hL : L .gradeParse) (report : String) :
    Aborts o L (convert_report_to_int o report) := by
  unfold convert_report_to_int read_prompt
  refine aborts_seqT (aborts_call _) fun sys => ?_
  refine aborts_seqT (aborts_call _) fun resp => ?_
  rcases pyInt (pyStrip resp) with _ | n
  · exact aborts_fail hL
  · exact aborts_pure n

/-- Claim C3: every failure in any pipeline stage of `process_exam` (prompt
loading, transcription, either first-pass call, either peer-review call,
either grade extraction) aborts the whole evaluation and propagates to the
caller: on an error the result carries no grade, the propagated error is
either exactly the error of the last request issued (everything before it
having succeeded and nothing being issued after it — no retry, no fallback)
or the locally raised grade-parse error, and a grade is only returned when
every issued request succeeded. -/
theorem C3_failures_abort_whole_evaluation (o : Oracle) (audio : List Nat)
    (class_name mime_type : String) :
    Aborts o (· = Err.gradeParse) (process_exam o audio class_name mime_type) := by
  unfold process_exam read_prompt transcribe_audio_with_gemini call_gemini call_claude
    call_gemini_with_peer_response call_claude_with_peer_response
  refine aborts_seqT (aborts_call _) fun fsRaw => ?_
  refine aborts_seqT (aborts_call _) fun ssRaw => ?_
  refine aborts_seqT (aborts_call _) fun transcript => ?_
  refine aborts_seqT (aborts_call _) fun gemini_response => ?_
  refine aborts_seqT (aborts_call _) fun claude_response => ?_
  refine aborts_seqT (aborts_call _) fun gemini_final => ?_
  refine aborts_seqT (aborts_call _) fun claude_final => ?_
  refine aborts_seqT (aborts_convert (· = Err.gradeParse) rfl _) fun grade_1 => ?_
  refine aborts_seqT (aborts_convert (· = Err.gradeParse) rfl _) fun grade_2 => ?_
  exact aborts_pure _

theorem pyReplaceL_noop {pat : List Char} (rep : List Char) :
    ∀ s : List Char, occursB pat s = false → pyReplaceL pat rep s = s := by
  intro s
  induction s with
  | nil => intro _; simp [pyReplaceL]
  | cons c rest ih =>
    intro hno
    simp only [occursB, Bool.or_eq_false_iff] at hno
    rw [pyReplaceL]
    rw [dif_neg (fun hc => by simp [hno.1] at hc)]
    rw [ih hno.2]

theorem pyReplaceS_noop (s pat rep : String) (hno : occursB pat.data s.data = false) :
    pyReplaceS s pat rep = s := by
  apply String.ext
  simpa [pyReplaceS] using pyReplaceL_noop rep.data s.data hno

theorem pySplitL_ne_nil (pat : List Char) : ∀ s : List Char, pySplitL pat s ≠ [] := by
  intro s
  induction s using pySplitL.induct pat with
  | case1 => simp [pySplitL]
  | case2 c rest h ih => rw [pySplitL, dif_pos h]; simp
  | case3 c rest h ih =>
    rw [pySplitL, dif_neg h]
    rcases hs : pySplitL pat rest with _ | ⟨y, ys⟩
    · exact absurd hs ih
    · simp [List.modifyHead]

theorem pyReplaceL_joinWith (pat rep : List Char) :
    ∀ s : List Char, pyReplaceL pat rep s = joinWith rep (pySplitL pat s) := by
  intro s
  induction s using pySplitL.induct pat with
  | case1 => simp [pyReplaceL, pySplitL, joinWith]
  | case2 c rest h ih =>
    rw [pyReplaceL, dif_pos h, pySplitL, dif_pos h, ih]
    rcases hs : pySplitL pat (List.drop pat.length (c :: rest)) with _ | ⟨y, ys⟩
    · exact absurd hs (pySplitL_ne_nil pat _)
    · simp [joinWith]
  | case3 c rest h ih =>
    rw [pyReplaceL, dif_neg h, pySplitL, dif_neg h, ih]
    rcases hs : pySplitL pat rest with _ | ⟨y, ys⟩
    · exact absurd hs (pySplitL_ne_nil pat rest)
    · rcases ys with _ | ⟨z, zs⟩
      · simp [joinWith, List.modifyHead]
      · simp [joinWith, List.modifyHead]

theorem process_exam_run (o : Oracle) (audio : List Nat) (class_name mime_type : String)
    (p1 p2 t gr cr gf cf fs r1 r2 : String) (g1 g2 : Int)
    (h1 : o (.readProm "first_stage.txt") = .ok p1)
    (h2 : o (.readProm "second_stage.txt") = .ok p2)
    (h3 : o (.transcribeGemini audio mime_type) = .ok t)
    (h4 : o (.geminiGen "gemini-3-pro-preview" [.bytes audio mime_type, .text geminiFirstPrompt]
      (pyReplaceS p1 "{class_name}" class_name) (some 1)) = .ok gr)
    (h5 : o (.claudeMsg "claude-opus-4-6" 8192 (pyReplaceS p1 "{class_name}" class_name)
      (claudeFirstPrompt t)) = .ok cr)
    (h6 : o (.geminiGen "gemini-3-pro-preview" [.bytes audio mime_type,
      .text (geminiPeerPrompt cr)] (pyReplaceS p2 "{class_name}" class_name) (some 1)) = .ok gf)
    (h7 : o (.claudeMsg "claude-opus-4-6" 8192 (pyReplaceS p2 "{class_name}" class_name)
      (claudePeerPrompt t gr)) = .ok cf)
    (h8 : o (.readProm "find_final_score.txt") = .ok fs)
    (h9 : o (.geminiGen "gemini-2.5-flash" [.text (extractPrompt gf)] fs none) = .ok r1)
    (h10 : o (.geminiGen "gemini-2.5-flash" [.text (extractPrompt cf)] fs none) = .ok r2)
    (hg1 : pyInt (pyStrip r1) = some g1)
    (hg2 : pyInt (pyStrip r2) = some g2) :
    process_exam o audio class_name mime_type =
      (runLog audio class_name mime_type p1 p2 t gr cr gf cf fs, .ok (roundAvg g1 g2)) := by
  unfold process_exam read_prompt transcribe_audio_with_gemini call_gemini call_claude
    call_gemini_with_peer_response call_claude_with_peer_response convert_report_to_int
  simp [read_prompt, callT, h1, h2, h3, h4, h5, h6, h7, h8, h9, h10, hg1, hg2, runLog, pureT]

/-- Claim C1: whenever every pipeline request succeeds and the Grade Extractor
responses parse to the integers `g1` and `g2` for the two final peer-reviewed
reports, `process_exam` returns `round((g1 + g2) / 2)` as its sole output
(the witness instantiates `g1 = 80`, `g2 = 90`, yielding 85). -/
theorem C1_returns_rounded_average (o : Oracle) (audio : List Nat) (class_name mime_type : String)
    (p1 p2 t gr cr gf cf fs r1 r2 : String) (g1 g2 : Int)
    (h1 : o (.readProm "first_stage.txt") = .ok p1)
    (h2 : o (.readProm "second_stage.txt") = .ok p2)
    (h3 : o (.transcribeGemini audio mime_type) = .ok t)
    (h4 : o (.geminiGen "gemini-3-pro-preview" [.bytes audio mime_type, .text geminiFirstPrompt]
      (pyReplaceS p1 "{class_name}" class_name) (some 1)) = .ok gr)
    (h5 : o (.claudeMsg "claude-opus-4-6" 8192 (pyReplaceS p1 "{class_name}" class_name)
      (claudeFirstPrompt t)) = .ok cr)
    (h6 : o (.geminiGen "gemini-3-pro-preview" [.bytes audio mime_type,
      .text (geminiPeerPrompt cr)] (pyReplaceS p2 "{class_name}" class_name) (some 1)) = .ok gf)
    (h7 : o (.claudeMsg "claude-opus-4-6" 8192 (pyReplaceS p2 "{class_name}" class_name)
      (claudePeerPrompt t gr)) = .ok cf)
    (h8 : o (.readProm "find_final_score.txt") = .ok fs)
    (h9 : o (.geminiGen "gemini-2.5-flash" [.text (extractPrompt gf)] fs none) = .ok r1)
    (h10 : o (.geminiGen "gemini-2.5-flash" [.text (extractPrompt cf)] fs none) = .ok r2)
    (hg1 : pyInt (pyStrip r1) = some g1)
    (hg2 : pyInt (pyStrip r2) = some g2) :
    (process_exam o audio class_name mime_type).2 = .ok (roundAvg g1 g2) := by
  rw [process_exam_run o audio class_name mime_type p1 p2 t gr cr gf cf fs r1 r2 g1 g2
    h1 h2 h3 h4 h5 h6 h7 h8 h9 h10 hg1 hg2]

/-- Witness for C1: on the concrete oracle `oW` (extractor responses `80` and
`90`), `process_exam` returns 85. -/
theorem C1_returns_rounded_average_witness :
    (process_exam oW [0] "Algorithms" "audio/webm").2 = .ok 85 := by
  have hs1 : pyReplaceS "S1" "{class_name}" "Algorithms" = "S1" :=
    pyReplaceS_noop _ _ _ (by decide)
  have hs2 : pyReplaceS "S2" "{class_name}" "Algorithms" = "S2" :=
    pyReplaceS_noop _ _ _ (by decide)
  have h4 : oW (.geminiGen "gemini-3-pro-preview" [.bytes [0] "audio/webm",
      .text geminiFirstPrompt] (pyReplaceS "S1" "{class_name}" "Algorithms") (some 1)) =
      .ok "GR" := by rw [hs1]; rfl
  have h5 : oW (.claudeMsg "claude-opus-4-6" 8192 (pyReplaceS "S1" "{class_name}" "Algorithms")
      (claudeFirstPrompt "T")) = .ok "CR" := by rw [hs1]; rfl
  have h6 : oW (.geminiGen "gemini-3-pro-preview" [.bytes [0] "audio/webm",
      .text (geminiPeerPrompt "CR")] (pyReplaceS "S2" "{class_name}" "Algorithms") (some 1)) =
      .ok "GF" := by rw [hs2]; rfl
  have h7 : oW (.claudeMsg "claude-opus-4-6" 8192 (pyReplaceS "S2" "{class_name}" "Algorithms")
      (claudePeerPrompt "T" "GR")) = .ok "CF" := by rw [hs2]; rfl
  have h := C1_returns_rounded_average oW [0] "Algorithms" "audio/webm"
    "S1" "S2" "T" "GR" "CR" "GF" "CF" "SF" "80" "90" 80 90
    rfl rfl rfl h4 h5 h6 h7 rfl rfl rfl (by decide) (by decide)
  have havg : roundAvg 80 90 = 85 := by decide
  rw [havg] at h
  exact h

theorem geminiPeerPrompt_inj {s s' : String} (h : geminiPeerPrompt s = geminiPeerPrompt s') :
    s = s' := by
  apply String.ext
  have hd := congrArg String.data h
  simp only [geminiPeerPrompt, String.data_append] at hd
  exact List.append_cancel_left (List.append_cancel_right hd)

theorem geminiPeerPrompt_ne_first (s : String) : geminiPeerPrompt s ≠ geminiFirstPrompt := by
  intro h
  have h2 : (geminiPeerPrompt s).data.head? = some 'H' := by
    simp [geminiPeerPrompt, String.data_append]
  have h3 : geminiFirstPrompt.data.head? = some 'P' := rfl
  rw [h, h3] at h2
  simp at h2

theorem claudePeerPrompt_inj_right {t s s' : String}
    (h : claudePeerPrompt t s = claudePeerPrompt t s') : s = s' := by
  apply String.ext
  have hd := congrArg String.data h
  simp only [claudePeerPrompt, String.data_append] at hd
  exact List.append_cancel_left (List.append_cancel_right hd)

theorem claudePeerPrompt_ne_first (t s t' : String) :
    claudePeerPrompt t s ≠ claudeFirstPrompt t' := by
  intro h
  have h2 : (claudePeerPrompt t s).data.head? = some 'H' := by
    simp [claudePeerPrompt, String.data_append]
  have h3 : (claudeFirstPrompt t').data.head? = some 'P' := by
    simp [claudeFirstPrompt, String.data_append]
  rw [h, h3] at h2
  simp at h2

/-- Claim C2: in the peer-review stage each backend's second call receives
exactly the other backend's first-pass report as the peer input, together
with that backend's own original input — the Gemini peer-review request
carries the audio again plus Claude's first-pass report `cr`, and the Claude
peer-review request carries the transcript again plus Gemini's first-pass
report `gr`; moreover these are the only requests of peer-review shape in the
whole trace, so no reviewer ever receives the other reviewer's peer-review
output. -/
theorem C2_peer_review_cross_feeding (o : Oracle) (audio : List Nat)
    (class_name mime_type : String) (p1 p2 t gr cr gf cf fs r1 r2 : String) (g1 g2 : Int)
    (h1 : o (.readProm "first_stage.txt") = .ok p1)
    (h2 : o (.readProm "second_stage.txt") = .ok p2)
    (h3 : o (.transcribeGemini audio mime_type) = .ok t)
    (h4 : o (.geminiGen "gemini-3-pro-preview" [.bytes audio mime_type, .text geminiFirstPrompt]
      (pyReplaceS p1 "{class_name}" class_name) (some 1)) = .ok gr)
    (h5 : o (.claudeMsg "claude-opus-4-6" 8192 (pyReplaceS p1 "{class_name}" class_name)
      (claudeFirstPrompt t)) = .ok cr)
    (h6 : o (.geminiGen "gemini-3-pro-preview" [.bytes audio mime_type,
      .text (geminiPeerPrompt cr)] (pyReplaceS p2 "{class_name}" class_name) (some 1)) = .ok gf)
    (h7 : o (.claudeMsg "claude-opus-4-6" 8192 (pyReplaceS p2 "{class_name}" class_name)
      (claudePeerPrompt t gr)) = .ok cf)
    (h8 : o (.readProm "find_final_score.txt") = .ok fs)
    (h9 : o (.geminiGen "gemini-2.5-flash" [.text (extractPrompt gf)] fs none) = .ok r1)
    (h10 : o (.geminiGen "gemini-2.5-flash" [.text (extractPrompt cf)] fs none) = .ok r2)
    (hg1 : pyInt (pyStrip r1) = some g1)
    (hg2 : pyInt (pyStrip r2) = some g2) :
    (process_exam o audio class_name mime_type).1 =
        runLog audio class_name mime_type p1 p2 t gr cr gf cf fs
      ∧ (Call.geminiGen "gemini-3-pro-preview" [.bytes audio mime_type,
          .text (geminiPeerPrompt cr)] (pyReplaceS p2 "{class_name}" class_name) (some 1))
          ∈ (process_exam o audio class_name mime_type).1
      ∧ (∀ s, (Call.geminiGen "gemini-3-pro-preview" [.bytes audio mime_type,
          .text (geminiPeerPrompt s)] (pyReplaceS p2 "{class_name}" class_name) (some 1))
          ∈ (process_exam o audio class_name mime_type).1 → s = cr)
      ∧ (Call.claudeMsg "claude-opus-4-6" 8192 (pyReplaceS p2 "{class_name}" class_name)
          (claudePeerPrompt t gr)) ∈ (process_exam o audio class_name mime_type).1
      ∧ (∀ s, (Call.claudeMsg "claude-opus-4-6" 8192 (pyReplaceS p2 "{class_name}" class_name)
          (claudePeerPrompt t s)) ∈ (process_exam o audio class_name mime_type).1 → s = gr) := by
  have hrun := process_exam_run o audio class_name mime_type p1 p2 t gr cr gf cf fs r1 r2 g1 g2
    h1 h2 h3 h4 h5 h6 h7 h8 h9 h10 hg1 hg2
  have hlog : (process_exam o audio class_name mime_type).1 =
      runLog audio class_name mime_type p1 p2 t gr cr gf cf fs := by rw [hrun]
  refine ⟨hlog, ?_, ?_, ?_, ?_⟩
  · rw [hlog]; simp [runLog]
  · intro s hmem
    rw [hlog] at hmem
    simp [runLog] at hmem
    rcases hmem with h | h
    · exact absurd h.1 (geminiPeerPrompt_ne_first s)
    · exact geminiPeerPrompt_inj h
  · rw [hlog]; simp [runLog]
  · intro s hmem
    rw [hlog] at hmem
    simp [runLog] at hmem
    rcases hmem with h | h
    · exact absurd h.2 (claudePeerPrompt_ne_first t s t)
    · exact claudePeerPrompt_inj_right h

/-- Witness for C2: on the concrete oracle `oW` the trace contains the Gemini
peer-review request fed Claude's first-pass report `CR` together with the
audio, and the Claude peer-review request fed Gemini's first-pass report `GR`
together with the transcript `T`. -/
theorem C2_peer_review_cross_feeding_witness :
    (Call.geminiGen "gemini-3-pro-preview" [.bytes [0] "audio/webm",
        .text (geminiPeerPrompt "CR")] (pyReplaceS "S2" "{class_name}" "Algorithms") (some 1))
      ∈ (process_exam oW [0] "Algorithms" "audio/webm").1
    ∧ (Call.claudeMsg "claude-opus-4-6" 8192 (pyReplaceS "S2" "{class_name}" "Algorithms")
        (claudePeerPrompt "T" "GR")) ∈ (process_exam oW [0] "Algorithms" "audio/webm").1 := by
  have hs1 : pyReplaceS "S1" "{class_name}" "Algorithms" = "S1" :=
    pyReplaceS_noop _ _ _ (by decide)
  have hs2 : pyReplaceS "S2" "{class_name}" "Algorithms" = "S2" :=
    pyReplaceS_noop _ _ _ (by decide)
  have h4 : oW (.geminiGen "gemini-3-pro-preview" [.bytes [0] "audio/webm",
      .text geminiFirstPrompt] (pyReplaceS "S1" "{class_name}" "Algorithms") (some 1)) =
      .ok "GR" := by rw [hs1]; rfl
  have h5 : oW (.claudeMsg "claude-opus-4-6" 8192 (pyReplaceS "S1" "{class_name}" "Algorithms")
      (claudeFirstPrompt "T")) = .ok "CR" := by rw [hs1]; rfl
  have h6 : oW (.geminiGen "gemini-3-pro-preview" [.bytes [0] "audio/webm",
      .text (geminiPeerPrompt "CR")] (pyReplaceS "S2" "{class_name}" "Algorithms") (some 1)) =
      .ok "GF" := by rw [hs2]; rfl
  have h7 : oW (.claudeMsg "claude-opus-4-6" 8192 (pyReplaceS "S2" "{class_name}" "Algorithms")
      (claudePeerPrompt "T" "GR")) = .ok "CF" := by rw [hs2]; rfl
  have h := C2_peer_review_cross_feeding oW [0] "Algorithms" "audio/webm"
    "S1" "S2" "T" "GR" "CR" "GF" "CF" "SF" "80" "90" 80 90
    rfl rfl rfl h4 h5 h6 h7 rfl rfl rfl (by decide) (by decide)
  exact ⟨h.2.1, h.2.2.2.1⟩

/-- Claim C5, evidence of the divergence: on the concrete oracle `oFail`,
whose Gemini first-pass answer is a backend error, `process_exam` never
issues the Claude first-pass request at all — its trace ends at the Gemini
first-pass request — because the source awaits `call_gemini` to completion
before `call_claude` is invoked.  Under the claimed fan-out (both first-pass
calls launched before either completes) the Claude request would have been
issued. -/
theorem C5_first_pass_is_sequential_not_concurrent :
    process_exam oFail [0] "C" "audio/webm" =
      ([.readProm "first_stage.txt", .readProm "second_stage.txt",
        .transcribeGemini [0] "audio/webm",
        .geminiGen "gemini-3-pro-preview" [.bytes [0] "audio/webm", .text geminiFirstPrompt]
          "x" (some 1)],
       .error (.backend "gemini" "boom"))
    ∧ ∀ model maxTokens system user,
        (Call.claudeMsg model maxTokens system user) ∉
          (process_exam oFail [0] "C" "audio/webm").1 := by
  have hx : pyReplaceS "x" "{class_name}" "C" = "x" := pyReplaceS_noop _ _ _ (by decide)
  have hmain : process_exam oFail [0] "C" "audio/webm" =
      ([.readProm "first_stage.txt", .readProm "second_stage.txt",
        .transcribeGemini [0] "audio/webm",
        .geminiGen "gemini-3-pro-preview" [.bytes [0] "audio/webm", .text geminiFirstPrompt]
          "x" (some 1)],
       .error (.backend "gemini" "boom")) := by
    unfold process_exam read_prompt transcribe_audio_with_gemini call_gemini
    simp [callT, hx, oFail]
  refine ⟨hmain, ?_⟩
  intro model maxTokens system user hmem
  rw [hmain] at hmem
  simp at hmem

/-- Claim C4: the Grade Extractor performs a direct integer parse of the
extractor model's response after trimming whitespace — when the trimmed text
is a valid Python integer literal the parsed integer is returned unclamped,
otherwise the call fails with the grade-parse error; the trace equation shows
the single extraction request, so there is no retry, and `"42"` parses to 42
while `"The grade is 42"` does not parse. -/
theorem C4_grade_extractor_strict_parse (o : Oracle) (report fs resp : String)
    (h8 : o (.readProm "find_final_score.txt") = .ok fs)
    (h9 : o (.geminiGen "gemini-2.5-flash" [.text (extractPrompt report)] fs none) = .ok resp) :
    ((∀ n : Int, pyInt (pyStrip resp) = some n →
        convert_report_to_int o report =
          ([.readProm "find_final_score.txt",
            .geminiGen "gemini-2.5-flash" [.text (extractPrompt report)] fs none], .ok n))
      ∧ (pyInt (pyStrip resp) = none →
        convert_report_to_int o report =
          ([.readProm "find_final_score.txt",
            .geminiGen "gemini-2.5-flash" [.text (extractPrompt report)] fs none],
           .error .gradeParse)))
    ∧ pyInt "42" = some 42 ∧ pyInt "The grade is 42" = none := by
  refine ⟨⟨?_, ?_⟩, by decide, by decide⟩
  · intro n hn
    unfold convert_report_to_int read_prompt
    simp [callT, h8, h9, hn, pureT]
  · intro hn
    unfold convert_report_to_int read_prompt
    simp [callT, h8, h9, hn, failT]

/-- Witness for C4: on the concrete oracle `oE`, whose extractor responds
`" 42 "`, the extractor returns 42 after one extraction request. -/
theorem C4_grade_extractor_strict_parse_witness :
    convert_report_to_int oE "R" =
      ([.readProm "find_final_score.txt",
        .geminiGen "gemini-2.5-flash" [.text (extractPrompt "R")] "FS" none], .ok 42) :=
  (C4_grade_extractor_strict_parse oE "R" "FS" " 42 " rfl rfl).1.1 42 (by decide)

/-- Claim C6: prompt substitution replaces every literal occurrence of the
`{class_name}` token in a single left-to-right pass — the result is the
decomposition of the template at the token occurrences joined by the supplied
class name, a decomposition computed from the template alone, so the
substituted content is never re-expanded; a template without the token is
returned unchanged (a silent no-op), as the spec's example and the
self-referential substitution illustrate. -/
theorem C6_prompt_substitution :
    (∀ template class_name : String, occursB "{class_name}".data template.data = false →
        pyReplaceS template "{class_name}" class_name = template)
    ∧ (∀ template class_name : String,
        (pyReplaceS template "{class_name}" class_name).data =
          joinWith class_name.data (pySplitL "{class_name}".data template.data))
    ∧ pyReplaceS "Grading for {class_name}." "{class_name}" "Algorithms" =
        "Grading for Algorithms."
    ∧ pyReplaceS "A {class_name} B {class_name}" "{class_name}" "X" = "A X B X"
    ∧ pyReplaceS "{class_name}" "{class_name}" "{class_name}" = "{class_name}" := by
  refine ⟨fun template cn h => pyReplaceS_noop _ _ _ h, fun template cn => ?_, ?_, ?_, ?_⟩
  · simp [pyReplaceS, pyReplaceL_joinWith]
  · apply String.ext
    simp [pyReplaceS, pyReplaceL]
  · apply String.ext
    simp [pyReplaceS, pyReplaceL]
  · apply String.ext
    simp [pyReplaceS, pyReplaceL]

/-- Witness for C6: a template with no placeholder is returned unchanged. -/
theorem C6_prompt_substitution_witness :
    pyReplaceS "Grade this exam." "{class_name}" "Algorithms" = "Grade this exam." :=
  C6_prompt_substitution.1 "Grade this exam." "Algorithms" (by decide)

/-- Claim C10: the grade-combining step uses Python `round`, i.e.
round-half-to-even — whenever `g1 + g2` is odd the exact average ends in `.5`
and the result is the even neighbour (an even integer at distance 1/2 from
the exact average); in particular grades 80 and 81 combine to 80 and grades
81 and 82 combine to 82. -/
theorem C10_round_half_to_even (g1 g2 : Int) (hodd : (g1 + g2) % 2 = 1) :
    (Even (roundAvg g1 g2)
      ∧ (2 * roundAvg g1 g2 - (g1 + g2) = 1 ∨ 2 * roundAvg g1 g2 - (g1 + g2) = -1))
    ∧ roundAvg 80 81 = 80 ∧ roundAvg 81 82 = 82 := by
  refine ⟨?_, by decide, by decide⟩
  unfold roundAvg pyRoundHalfSum
  rw [if_neg (by omega)]
  by_cases hf : ((g1 + g2) / 2) % 2 = 0
  · rw [if_pos hf]
    exact ⟨Int.even_iff.mpr hf, by omega⟩
  · rw [if_neg hf]
    refine ⟨Int.even_iff.mpr ?_, by omega⟩
    omega

/-- Witness for C10 at the odd sum 80 + 81: the combined grade 80 is even,
sits at distance 1/2 from the exact average 80.5, and the two concrete
combinations evaluate as claimed. -/
theorem C10_round_half_to_even_witness :
    (Even (roundAvg 80 81)
      ∧ (2 * roundAvg 80 81 - (80 + 81) = 1 ∨ 2 * roundAvg 80 81 - (80 + 81) = -1))
    ∧ roundAvg 80 81 = 80 ∧ roundAvg 81 82 = 82 :=
  C10_round_half_to_even 80 81 (by decide)

theorem isPrefixOf_append_left (p q : List Char) :
    ∀ l : List Char, (p ++ q).isPrefixOf l = true → p.isPrefixOf l = true := by
  induction p with
  | nil => intro l _; simp [List.isPrefixOf]
  | cons a as ih =>
    intro l h
    cases l with
    | nil => simp [List.isPrefixOf] at h
    | cons b bs =>
      simp only [List.cons_append, List.isPrefixOf, Bool.and_eq_true] at h ⊢
      exact ⟨h.1, ih bs h.2⟩

theorem occursB_append_left (p q : List Char) :
    ∀ t : List Char, occursB (p ++ q) t = true → occursB p t = true := by
  intro t
  induction t with
  | nil =>
    simp only [occursB, List.isEmpty_iff, List.append_eq_nil]
    exact fun h => h.1
  | cons c rest ih =>
    simp only [occursB, Bool.or_eq_true]
    rintro (h | h)
    · exact Or.inl (isPrefixOf_append_left p q _ h)
    · exact Or.inr (ih h)

/-- Claim C7: the Cheating Detector parses the model response permissively —
the surrounding fenced-code markers are stripped before the JSON parse (a
text with no fence is parsed as is), and each field missing from the parsed
object takes its default (`is_cheating=false`, `confidence="low"`,
`summary=""`, `indicators_found=[]`, `recommendation="clear"`, `notes=""`)
while present fields are returned exactly as parsed, via `dict.get`. -/
theorem C7_cheating_detector_parsing :
    (∀ (loads : String → Option Json) (o : Oracle) (a v s : List Nat) (am vm sm : String)
      (sys resp : String) (fields : List (String × Json)),
      o (.readProm "cheating_detection.txt") = .ok sys →
      o (cheatReq a v s am vm sm sys) = .ok resp →
      loads (String.mk (fencedStrip (pyStripL resp.data))) = some (.obj fields) →
      detect_cheating loads o a v s am vm sm =
        ([.readProm "cheating_detection.txt", cheatReq a v s am vm sm sys],
         .ok ⟨dGet fields "is_cheating" (.bool false), dGet fields "confidence" (.str "low"),
           dGet fields "summary" (.str ""), dGet fields "indicators_found" (.arr []),
           dGet fields "recommendation" (.str "clear"), dGet fields "notes" (.str "")⟩))
    ∧ (∀ t : List Char, occursB "```".data t = false → fencedStrip t = t)
    ∧ String.mk (fencedStrip (pyStripL " ```json\n\x7b\"a\": 1\x7d\n``` ".data)) =
        "\x7b\"a\": 1\x7d" := by
  refine ⟨?_, ?_, by decide⟩
  · intro loads o a v s am vm sm sys resp fields hsys hresp hloads
    unfold detect_cheating read_prompt
    simp [callT, hsys, hresp, hloads, pureT]
  · intro t h3
    have hj : occursB "```json".data t = false := by
      rcases hcase : occursB "```json".data t
      · rfl
      · have := occursB_append_left "```".data "json".data t
          (by rw [show "```".data ++ "json".data = "```json".data from by decide]; exact hcase)
        rw [h3] at this
        exact absurd this (by simp)
    unfold fencedStrip
    rw [if_neg (by simp [hj]), if_neg (by simp [h3])]

/-- Witness for C7: on the concrete parser `loadsW` and oracle `oCW` (response
wrapped in a fenced block and carrying `is_cheating` and `confidence` only),
the present fields are returned as parsed and all the missing ones default. -/
theorem C7_cheating_detector_parsing_witness :
    detect_cheating loadsW oCW [0] [1] [2] "audio/webm" "video/webm" "video/webm" =
      ([.readProm "cheating_detection.txt",
        cheatReq [0] [1] [2] "audio/webm" "video/webm" "video/webm" "CP"],
       .ok ⟨.bool true, .str "high", .str "", .arr [], .str "clear", .str ""⟩) := by
  have h := C7_cheating_detector_parsing.1 loadsW oCW [0] [1] [2]
    "audio/webm" "video/webm" "video/webm" "CP" " ```json\n\x7b\x7d\n``` "
    [("is_cheating", .bool true), ("confidence", .str "high")] rfl rfl rfl
  exact h

/-- Claim C8: in the absence of a required provider API key from the process
environment (loaded as `none`, or as the empty — falsy — string), the first
use of the corresponding backend fails fast with the spec's
`MissingCredentialError` rather than silently proceeding: the speech
transcription path raises before issuing any network request, and the
spec-modelled provider client constructors reject an absent key at first use. -/
theorem C8_missing_key_fails_fast (net : SpeechNet) (audio : List Nat)
    (mime_type language_code : String) (timeout_seconds : Nat) (key : Option String)
    (hkey : key = none ∨ key = some "") :
    transcribe_audio_with_google_speech_api_key net key audio mime_type language_code
        timeout_seconds = ([], .error .missingCredential)
      ∧ client_first_use none = .error .missingCredential := by
  refine ⟨?_, rfl⟩
  rcases hkey with h | h <;> subst h <;> rfl

/-- Witness for C8: with no key in the environment, the transcription path
reports the missing credential without any network traffic. -/
theorem C8_missing_key_fails_fast_witness :
    transcribe_audio_with_google_speech_api_key netW none [] "audio/webm" "en-US" 600 =
        ([], .error .missingCredential)
      ∧ client_first_use none = .error .missingCredential :=
  C8_missing_key_fails_fast netW [] "audio/webm" "en-US" 600 none (Or.inl rfl)

theorem pollOps_all_pending (net : SpeechNet) (opName : Json)
    (hget : ∀ i, ∃ op, net.get opName i = .ok op ∧ pyTruthy (dGetJ op "done") = false) :
    ∀ (fuel clock deadline : Nat), deadline - clock = fuel →
      pollOps net opName deadline clock =
        ((List.range' clock ((deadline - clock + 1) / 2) 2).map (SpeechEvent.poll opName),
         .error .timeout) := by
  intro fuel
  induction fuel using Nat.strong_induction_on with
  | _ fuel ih =>
    intro clock deadline hfc
    by_cases hcd : clock < deadline
    · obtain ⟨op, hop, hdone⟩ := hget clock
      have hrec := ih (deadline - (clock + 2)) (by omega) (clock + 2) deadline rfl
      rw [pollOps, if_pos hcd, hop]
      simp only [hdone, Bool.false_eq_true, if_false, hrec]
      have hn : (deadline - clock + 1) / 2 = (deadline - (clock + 2) + 1) / 2 + 1 := by omega
      rw [hn, List.range'_succ]
      simp
    · rw [pollOps, if_neg hcd]
      have hz : (deadline - clock + 1) / 2 = 0 := by omega
      simp [hz]

/-- Claim C9: the speech-to-text long-running-operation poll runs under the
explicit deadline `timeout_seconds` after start and polls every 2 seconds (the
poll events happen at elapsed times 0, 2, 4, …); whenever every poll answers
but the operation never reports completion before the deadline elapses, the
function terminates by raising `TimeoutError` instead of polling forever. -/
theorem C9_poll_deadline_timeout (net : SpeechNet) (k : String) (audio : List Nat)
    (mime_type language_code : String) (timeout_seconds : Nat) (startResp : Json)
    (hk : k.data ≠ [])
    (hpost : net.post (speechPayload audio mime_type language_code) = .ok startResp)
    (hname : pyTruthy (dGetJ startResp "name") = true)
    (hget : ∀ i, ∃ op, net.get (dGetJ startResp "name") i = .ok op ∧
      pyTruthy (dGetJ op "done") = false) :
    transcribe_audio_with_google_speech_api_key net (some k) audio mime_type language_code
        timeout_seconds =
      (.post (speechPayload audio mime_type language_code) ::
        (List.range' 0 ((timeout_seconds + 1) / 2) 2).map
          (SpeechEvent.poll (dGetJ startResp "name")),
       .error .timeout) := by
  have hkt : (!k.data.isEmpty) = true := by
    rcases hd : k.data with _ | ⟨c, cs⟩
    · exact absurd hd hk
    · rfl
  have hpoll := pollOps_all_pending net (dGetJ startResp "name") hget
    (timeout_seconds - 0) 0 timeout_seconds rfl
  unfold transcribe_audio_with_google_speech_api_key
  simp only [hkt, Bool.true_eq_false, if_false, hpost, hname, hpoll, Nat.sub_zero]

/-- Witness for C9: on the concrete network `netW`, whose polls always report
the operation pending, a 5-second deadline produces exactly the start request
and polls at elapsed times 0, 2 and 4, then the timeout error. -/
theorem C9_poll_deadline_timeout_witness :
    transcribe_audio_with_google_speech_api_key netW (some "K") [1, 2, 3] "audio/webm" "en-US"
        5 =
      (.post (speechPayload [1, 2, 3] "audio/webm" "en-US") ::
        [SpeechEvent.poll (.str "op-1") 0, .poll (.str "op-1") 2, .poll (.str "op-1") 4],
       .error .timeout) := by
  have h := C9_poll_deadline_timeout netW "K" [1, 2, 3] "audio/webm" "en-US" 5
    (.obj [("name", .str "op-1")]) (by decide) rfl rfl
    (fun i => ⟨.obj [("done", .bool false)], rfl, rfl⟩)
  simpa using h

end OralExam
